import Mathlib

/-!
# Verification of the alibaba-scraper core

A shallow embedding of the scraper's core control flow, translated from the
TypeScript source:

* `src/src/scrapers/browser-scraper.ts` — browser attempt loop
  (`scrapeFromUrlWithBrowser`), per-attempt session handling
  (`scrapeWithBrowser`), URL normalization, captcha detection checks;
* `src/src/scrapers/alibaba-scraper.ts` — fetch attempt loop (`scrapeFromUrl`),
  URL normalization;
* `src/src/services/browser-manager.ts` — browser lifecycle manager
  (`getBrowser`, `launchBrowser`, `closeBrowser`);
* `src/cache.ts` — best-effort Redis cache (`getCachedProduct`,
  `setCachedProduct`);
* `src/index.ts` — the `/scrape` route orchestration (browser path with
  fetch fallback).

External effects (Puppeteer, network fetch, Redis, the HTML extractor) are
modelled as explicit inputs: each attempt's outcome is a parameter, so the
definitions capture exactly the control flow the TypeScript code performs on
those outcomes.
-/

/-! ## String helpers

The TypeScript code classifies errors and detects captchas with
`String.prototype.includes` (case-sensitive substring) and
`String.prototype.toLowerCase`.  We model strings by their character lists.
-/

/-- Case-sensitive substring test: `hasSubstrL hay pat` is `true` iff `pat`
occurs contiguously in `hay` (the semantics of JS `hay.includes(pat)`). -/
def hasSubstrL : List Char → List Char → Bool
  | hay, pat =>
    if pat.isPrefixOf hay then true
    else
      match hay with
      | [] => false
      | _ :: t => hasSubstrL t pat

/-- `strContains hay pat` models the JS expression `hay.includes(pat)`. -/
def strContains (hay pat : String) : Bool :=
  hasSubstrL hay.data pat.data

/-- Lower-casing of a character list (models `toLowerCase` on the data). -/
def lowerL (l : List Char) : List Char := l.map Char.toLower

/-- Case-insensitive substring test: models `hay.toLowerCase().includes(pat)`
for a lower-case needle `pat`, as the detection code does. -/
def strContainsCI (hay pat : String) : Bool :=
  hasSubstrL (lowerL hay.data) pat.data

/-- `containsAny msg ps` is `true` iff `msg` contains one of the phrases in
`ps` — the shape of the chained `errorMessage.includes(...) || ...` tests. -/
def containsAny (msg : String) (ps : List String) : Bool :=
  ps.any (fun p => strContains msg p)

/-! ## URL normalization (`normalizeUrl`)

Translated from `browser-scraper.ts` lines 38–53 (the identical function also
appears in `alibaba-scraper.ts` lines 1378–1393 and `index.ts` lines 66–81):

```ts
function normalizeUrl(url: string): string {
  if (!url) return url;
  if (url.match(/^https?:\/\//i)) return url;
  if (url.startsWith("//")) return "https:" + url;
  return "https://" + url;
}
```
-/

/-- The test `url.match(/^https?:\/\//i)`: the string starts, case
insensitively, with `http://` or `https://`. -/
def matchesProtocolL (l : List Char) : Bool :=
  List.isPrefixOf "http://".data (lowerL l) || List.isPrefixOf "https://".data (lowerL l)

/-- Core of `normalizeUrl` on character lists. -/
def normalizeUrlCore (l : List Char) : List Char :=
  if l.isEmpty then l
  else if matchesProtocolL l then l
  else if List.isPrefixOf ['/', '/'] l then "https:".data ++ l
  else "https://".data ++ l

/-- `normalizeUrl` from the source. -/
def normalizeUrl (s : String) : String := ⟨normalizeUrlCore s.data⟩

/-- Spec-side restatement of claim C10's case description of `normalizeUrl`:
`u` itself when `u` is empty or already matches `^https?://` case
insensitively; `"https:" + u` when `u` starts with `"//"`; `"https://" + u`
otherwise.  Kept separate from `normalizeUrl` so the refinement theorem
compares the source translation against the claim's wording. -/
def normalizeUrlSpec (s : String) : String :=
  if s.data.isEmpty then s
  else if matchesProtocolL s.data then s
  else if List.isPrefixOf ['/', '/'] s.data then "https:" ++ s
  else "https://" ++ s

/-! ## Error messages

The exact error strings thrown by the source; the retry loops classify
failures by substring tests on these. -/

/-- `alibaba-scraper.ts` / `browser-scraper.ts`: the message of the error
thrown when a retry loop exhausts its budget. -/
def scrapeFailMsg (retries : Nat) (lastErr : Option String) : String :=
  "Failed to scrape product after " ++ toString retries ++
    " attempts. Last error: " ++ lastErr.getD "Unknown error"

/-- `browser-scraper.ts` lines 1110–1112: wrapper thrown when the browser
executable is missing. -/
def browserNotFoundMsg (orig : String) : String :=
  "Browser executable not found. Please ensure Chrome/Chromium is installed or remove PUPPETEER_EXECUTABLE_PATH to use bundled Chromium. Original error: " ++ orig

/-- `browser-scraper.ts` lines 646–649: thrown when a captcha is detected,
no solver resolves it, and manual solving is unavailable. -/
def blockedNoSolverMsg : String :=
  "Page is protected by captcha or access control. Alibaba is blocking automated access. Set NODE_ENV=development and headless=false to enable manual captcha solving."

/-- `alibaba-scraper.ts` line 1457: thrown when the fetched HTML contains a
block marker. -/
def accessDeniedMsg : String :=
  "Access denied by Alibaba. The page may be protected or your IP may be temporarily blocked."

/-- `alibaba-scraper.ts` line 1466 / `browser-scraper.ts` line 666: thrown
when the extractor produced no usable title. -/
def extractFailMsg : String :=
  "Failed to extract product information. The page structure may have changed."

/-- `alibaba-scraper.ts` line 1452. -/
def emptyResponseMsg : String := "Received empty or invalid response from Alibaba"

/-- `alibaba-scraper.ts` line 1445. -/
def httpErrorMsg (status : Nat) (statusText : String) : String :=
  "HTTP error! status: " ++ toString status ++ " - " ++ statusText

/-! ## The extracted record -/

/-- The part of `AlibabaProduct` the control flow inspects: the loops only
look at `title` (absent = empty string, or the sentinel "Unknown Product"). -/
structure ProductRec where
  title : String
deriving DecidableEq

/-! ## Browser retry loop (`scrapeFromUrlWithBrowser`)

Translated from `browser-scraper.ts` lines 1076–1125.  The outcome of the
`i`-th call to `scrapeWithBrowser` is supplied as `outcomes i` (1-indexed).
On failure the loop aborts immediately iff the message contains one of three
phrases; otherwise it retries until the budget is exhausted and throws the
generic after-N-attempts error.  The returned list is the attempt history.
-/

/-- `browser-scraper.ts` lines 1104–1108: the phrases whose presence in a
failed attempt's error message aborts the browser retry loop immediately. -/
def browserAbortPhrases : List String :=
  ["Browser was not found", "executablePath", "ENOENT"]

/-- The retry-abort decision of the browser loop: a substring test on the
free-text error message (`errorMessage.includes(...)`, lines 1104–1108). -/
def shouldAbortBrowserRetry (msg : String) : Bool :=
  containsAny msg browserAbortPhrases

/-- The loop of `scrapeFromUrlWithBrowser`; the fuel argument counts the
remaining attempts (`retries - attempt + 1` in the source's terms). -/
def browserLoopAux (outcomes : Nat → Except String ProductRec) (retries : Nat) :
    Nat → Nat → Option String →
    List (Except String ProductRec) × Except String ProductRec
  | 0, _, lastErr => ([], .error (scrapeFailMsg retries lastErr))
  | n + 1, attempt, _ =>
    match outcomes attempt with
    | .ok p => ([.ok p], .ok p)
    | .error m =>
      if shouldAbortBrowserRetry m then
        ([.error m], .error (browserNotFoundMsg m))
      else if n = 0 then
        ([.error m], .error (scrapeFailMsg retries (some m)))
      else
        let rest := browserLoopAux outcomes retries n (attempt + 1) (some m)
        (.error m :: rest.1, rest.2)

/-- `scrapeFromUrlWithBrowser(url, retries)`: run up to `retries` browser
attempts; returns the attempt history and the final result. -/
def scrapeFromUrlWithBrowser (outcomes : Nat → Except String ProductRec)
    (retries : Nat) :
    List (Except String ProductRec) × Except String ProductRec :=
  browserLoopAux outcomes retries retries 1 none

/-! ## Fetch retry loop (`scrapeFromUrl`)

Translated from `alibaba-scraper.ts` lines 1398–1489.  A single attempt is a
`fetch` whose observable result we model as `FetchStep`; the extractor
(`new AlibabaScraper(html).scrape()`) is the collaborator function
`extract`.  The loop breaks out early iff the failure message contains one of
four phrases (lines 1475–1482); both exits throw the generic error.
-/

/-- The observable result of one `fetch(url, ...)` call: either the promise
rejects with a message, or a response arrives with a status, status text and
body. -/
inductive FetchStep
  | fetchThrow (msg : String)
  | httpResp (status : Nat) (statusText : String) (html : String)

/-- `alibaba-scraper.ts` lines 1475–1480: the phrases whose presence in a
failed attempt's error message stops the fetch retry loop. -/
def fetchAbortPhrases : List String :=
  ["Access Denied", "404", "invalid URL", "Failed to parse URL"]

/-- The retry-break decision of the fetch loop: a substring test on the
free-text error message (`lastError.message.includes(...)`). -/
def shouldBreakFetchRetry (msg : String) : Bool :=
  containsAny msg fetchAbortPhrases

/-- One fetch attempt's body (`alibaba-scraper.ts` lines 1438–1469):
HTTP-status check, minimum-length check, block-marker check (case
sensitive `includes` of `Access Denied`, `Blocked`, `captcha`), then
extraction and the required-title validation. -/
def attemptFetch (extract : String → ProductRec) : FetchStep → Except String ProductRec
  | .fetchThrow m => .error m
  | .httpResp status statusText html =>
    if ¬(200 ≤ status ∧ status < 300) then .error (httpErrorMsg status statusText)
    else if html.length < 100 then .error emptyResponseMsg
    else if strContains html "Access Denied" || strContains html "Blocked" ||
        strContains html "captcha" then
      .error accessDeniedMsg
    else
      let p := extract html
      if p.title = "" ∨ p.title = "Unknown Product" then .error extractFailMsg
      else .ok p

/-- The loop of `scrapeFromUrl`; fuel counts the remaining attempts. -/
def fetchLoopAux (extract : String → ProductRec) (steps : Nat → FetchStep)
    (retries : Nat) :
    Nat → Nat → Option String →
    List (Except String ProductRec) × Except String ProductRec
  | 0, _, lastErr => ([], .error (scrapeFailMsg retries lastErr))
  | n + 1, attempt, _ =>
    match attemptFetch extract (steps attempt) with
    | .ok p => ([.ok p], .ok p)
    | .error m =>
      if shouldBreakFetchRetry m ∨ n = 0 then
        ([.error m], .error (scrapeFailMsg retries (some m)))
      else
        let rest := fetchLoopAux extract steps retries n (attempt + 1) (some m)
        (.error m :: rest.1, rest.2)

/-- `scrapeFromUrl(url, retries)`: up to `retries` fetch attempts (the source
default is `retries = 3`); returns the attempt history and final result. -/
def scrapeFromUrl (extract : String → ProductRec) (steps : Nat → FetchStep)
    (retries : Nat) :
    List (Except String ProductRec) × Except String ProductRec :=
  fetchLoopAux extract steps retries retries 1 none

/-! ## Route orchestration (`index.ts`, `app.post("/scrape")`)

Lines 119–135 of `index.ts`: on the cache-miss, `useBrowser = true` path the
route calls `scrapeFromUrlWithBrowser(url, retries)` and, if that throws for
any reason, falls back to one call of `scrapeFromUrl(url)` — which uses its
own default budget of 3 fetch attempts.  Result: the browser attempt
history, the fetch attempt history, and the final outcome. -/
def scrapeEndpoint (browserOutcomes : Nat → Except String ProductRec)
    (extract : String → ProductRec) (fetchSteps : Nat → FetchStep)
    (retries : Nat) :
    List (Except String ProductRec) × List (Except String ProductRec) ×
      Except String ProductRec :=
  let rb := scrapeFromUrlWithBrowser browserOutcomes retries
  match rb.2 with
  | .ok p => (rb.1, [], .ok p)
  | .error _ =>
    let rf := scrapeFromUrl extract fetchSteps 3
    (rb.1, rf.1, rf.2)

/-! ## Captcha / block detection (`browser-scraper.ts`)

The early check (lines 344–365) evaluates lower-cased `body.innerText` and
`documentElement.innerHTML` against four phrases plus three DOM markers; the
final check (lines 554–591) evaluates lower-cased `page.content()`, the page
title and the page URL against nine indicator phrases plus seven DOM
markers.  We model the page by the strings and marker booleans the checks
read. -/

/-- The data the two detection checks read from the page. -/
structure PageView where
  bodyText : String
  innerHtml : String
  content : String
  title : String
  url : String
  recaptchaIframe : Bool
  gRecaptchaDiv : Bool
  captchaIdElem : Bool
  captchaClassElem : Bool
  challengeIdElem : Bool
  challengeClassElem : Bool
  challengeIframe : Bool

/-- The four phrases of the early check (lines 350–353). -/
def earlyPhrases : List String :=
  ["captcha", "verify you are human", "security check", "unusual traffic"]

/-- The nine indicator phrases of the final check (lines 560–570). -/
def captchaIndicators : List String :=
  ["captcha", "verify you are human", "verify that you are not a robot",
   "access denied", "blocked", "security check", "unusual traffic",
   "please complete the security check", "challenge"]

/-- Early check, text part: `hasCaptchaText` (lines 350–353). -/
def hasCaptchaText (p : PageView) : Bool :=
  earlyPhrases.any (fun ph => strContainsCI p.bodyText ph || strContainsCI p.innerHtml ph)

/-- Early check, element part: `hasRecaptcha` (lines 354–356). -/
def hasRecaptchaElem (p : PageView) : Bool :=
  p.recaptchaIframe || p.gRecaptchaDiv || p.captchaIdElem

/-- Early verdict (line 367): blocked iff text or element signal fires. -/
def earlyBlocked (p : PageView) : Bool :=
  hasCaptchaText p || hasRecaptchaElem p

/-- Final check, phrase part: `hasCaptcha` (lines 572–577) — each indicator
is matched against the lower-cased page content, page title and page URL. -/
def finalHasCaptchaText (p : PageView) : Bool :=
  captchaIndicators.any (fun ind =>
    strContainsCI p.content ind || strContainsCI p.title ind || strContainsCI p.url ind)

/-- Final check, element part: `captchaElements` (lines 580–590). -/
def finalCaptchaElements (p : PageView) : Bool :=
  p.recaptchaIframe || p.gRecaptchaDiv || p.captchaIdElem || p.captchaClassElem ||
    p.challengeIdElem || p.challengeClassElem || p.challengeIframe

/-- Final verdict (line 592). -/
def finalBlocked (p : PageView) : Bool :=
  finalHasCaptchaText p || finalCaptchaElements p

/-- Overall detection verdict for one attempt: the attempt treats the page as
blocked iff the early or the final check fires. -/
def detectionBlocked (p : PageView) : Bool :=
  earlyBlocked p || finalBlocked p

/-! ## Page session cleanup (`scrapeWithBrowser`, lines 59–701)

Per attempt the controller opens at most one page (`browser.newPage()`), and
the `finally` block (lines 690–700) closes it whatever happened; the shared
browser handle is never closed here.  The ways the try-block can end are
enumerated by `AttemptOutcome`. -/

/-- How the try-block of one `scrapeWithBrowser` attempt ends. -/
inductive AttemptOutcome
  | newPageFail (msg : String)
  | navError (msg : String)
  | blocked
  | extractFail
  | success (p : ProductRec)

/-- Counters for the session resources an attempt touches. -/
structure SessionLog where
  pagesOpened : Nat
  pagesClosed : Nat
  browserClosed : Bool
deriving DecidableEq

/-- The try-block of `scrapeWithBrowser`: every path after `newPage`
succeeds has opened exactly one page; no path closes the page or the
browser inside the try-block. -/
def scrapeTryBody : AttemptOutcome → SessionLog × Except String ProductRec
  | .newPageFail m => (⟨0, 0, false⟩, .error m)
  | .navError m => (⟨1, 0, false⟩, .error m)
  | .blocked => (⟨1, 0, false⟩, .error blockedNoSolverMsg)
  | .extractFail => (⟨1, 0, false⟩, .error extractFailMsg)
  | .success p => (⟨1, 0, false⟩, .ok p)

/-- The `finally` block (lines 690–700): `if (page) await page.close()`;
the browser is left untouched. -/
def scrapeFinally (r : SessionLog × Except String ProductRec) :
    SessionLog × Except String ProductRec :=
  if r.1.pagesClosed < r.1.pagesOpened then
    ({ r.1 with pagesClosed := r.1.pagesClosed + 1 }, r.2)
  else r

/-- One full `scrapeWithBrowser` attempt: try-block then `finally`. -/
def scrapeWithBrowserModel (o : AttemptOutcome) :
    SessionLog × Except String ProductRec :=
  scrapeFinally (scrapeTryBody o)

/-! ## Browser lifecycle manager (`browser-manager.ts`)

`getBrowser(headlessOverride?)` (lines 56–95) runs on a single-threaded
event loop; its synchronous prefix (override handling when no connected
browser needs teardown, the connected-browser check, and the
launch-memoization check) executes atomically between awaits.  We model it
as a step relation: `acquireStep` is the synchronous prefix, returning what
the caller will await; `completeStep` is the resolution of an in-flight
launch.  The launch captures `this.headless` when it starts. -/

/-- `boolean | "new"` — the headless preference values. -/
inductive HeadlessPref
  | hFalse
  | hTrue
  | hNew
deriving DecidableEq

/-- The normalization in lines 60–61: `"new"` and `true` both count as
headless. -/
def hmIsHeadless : HeadlessPref → Bool
  | .hFalse => false
  | _ => true

/-- A launched browser handle: identity, the headless mode it was launched
with, and whether it is still connected. -/
structure Brw where
  id : Nat
  headless : Bool
  connected : Bool
deriving DecidableEq

/-- The manager's mutable state: the cached handle, the launch-memoization
fields `isLaunching` / `launchPromise` (the pending launch's identity and
captured mode), the current headless preference, plus instrumentation
counters for launches started and teardowns performed. -/
structure BMState where
  browser : Option Brw
  isLaunching : Bool
  launchPromise : Option (Nat × Bool)
  headless : HeadlessPref
  nextLaunchId : Nat
  launchCount : Nat
  closeCount : Nat
deriving DecidableEq

/-- What `getBrowser`'s synchronous prefix hands the caller to await. -/
inductive AcqRes
  | reuse (b : Brw)
  | join (launchId : Nat)
  | start (launchId : Nat)
deriving DecidableEq

/-- Lines 58–72: the headless-override block.  A connected handle whose
normalized mode differs from the override is torn down (`closeBrowser`,
which nulls the handle) and the preference is updated; with no handle the
preference is simply updated; otherwise nothing changes. -/
def applyOverride (s : BMState) (ov : Option HeadlessPref) : BMState :=
  match ov with
  | none => s
  | some m =>
    match s.browser with
    | some b =>
      if b.connected ∧ hmIsHeadless m ≠ hmIsHeadless s.headless then
        { s with browser := none, closeCount := s.closeCount + 1, headless := m }
      else s
    | none => { s with headless := m }

/-- Lines 84–86: start a fresh launch, recording the captured mode. -/
def startLaunch (s : BMState) : BMState × AcqRes :=
  ({ s with
      isLaunching := true
      launchPromise := some (s.nextLaunchId, hmIsHeadless s.headless)
      nextLaunchId := s.nextLaunchId + 1
      launchCount := s.launchCount + 1 },
   .start s.nextLaunchId)

/-- Lines 80–86: join the in-flight launch if there is one, else start one. -/
def acquireLaunch (s : BMState) : BMState × AcqRes :=
  match s.launchPromise with
  | some lp => if s.isLaunching then (s, .join lp.1) else startLaunch s
  | none => startLaunch s

/-- The synchronous prefix of `getBrowser(headlessOverride?)`
(lines 56–86). -/
def acquireStep (s : BMState) (ov : Option HeadlessPref) : BMState × AcqRes :=
  let s1 := applyOverride s ov
  match s1.browser with
  | some b => if b.connected then (s1, .reuse b) else acquireLaunch s1
  | none => acquireLaunch s1

/-- Resolution of the in-flight launch (lines 88–94 plus the end of
`launchBrowser`): the new connected handle is cached and the memoization
fields are cleared. -/
def completeStep (s : BMState) : BMState :=
  match s.launchPromise with
  | none => s
  | some lp =>
    { s with
        browser := some ⟨lp.1, lp.2, true⟩
        isLaunching := false
        launchPromise := none }

/-- A burst of concurrent callers: each runs `getBrowser`'s synchronous
prefix in turn (single-threaded interleaving), before any launch
resolves. -/
def acquireMany (s : BMState) : List (Option HeadlessPref) → BMState × List AcqRes
  | [] => (s, [])
  | ov :: rest =>
    let r := acquireStep s ov
    let rs := acquireMany r.1 rest
    (rs.1, r.2 :: rs.2)

/-- One sequential `getBrowser` call run to completion (no other caller
interleaved): prefix, then — if a launch was started — its resolution.
Returns the handle the caller receives. -/
def getBrowserRun (s : BMState) (ov : Option HeadlessPref) : BMState × Option Brw :=
  let r := acquireStep s ov
  match r.2 with
  | .reuse b => (r.1, some b)
  | .join _ => (r.1, none)
  | .start _ =>
    let s2 := completeStep r.1
    (s2, s2.browser)

/-! ## Launch retry inside the manager (`launchBrowser`, lines 100–200)

The first `puppeteer.launch` call's outcome is `first`; if it fails with an
executable-path-related message (lines 159–163) the manager deletes the env
var and silently retries once with the bundled Chromium, whose outcome is
`second`; any other failure is rethrown unchanged.  The `Nat` counts the
`puppeteer.launch` calls performed. -/

/-- Lines 159–163: the messages that trigger the internal bundled-Chromium
retry. -/
def execPathPhrases : List String :=
  ["executablePath", "Browser was not found", "Tried to find the browser"]

/-- `launchBrowser` with the two possible `puppeteer.launch` outcomes as
inputs. -/
def launchBrowserModel (first second : Except String Brw) : Nat × Except String Brw :=
  match first with
  | .ok b => (1, .ok b)
  | .error m =>
    if containsAny m execPathPhrases then (2, second)
    else (1, .error m)

/-! ## Best-effort cache (`cache.ts`, lines 155–203)

`getCachedProduct` and `setCachedProduct` guard on `cacheEnabled &&
redisClient` and wrap the Redis call (and the `JSON.parse`) in `try/catch`;
the catch swallows the failure.  The Redis call's outcome and the parse are
inputs.  The result type is `Except` so "never propagates a failure" is
expressible: the functions always return `.ok`. -/

/-- The module-level cache flags. -/
structure CacheState where
  cacheEnabled : Bool
  hasClient : Bool

/-- `getCachedProduct` (lines 155–176). -/
def getCachedProduct (st : CacheState) (redisGet : Except String (Option String))
    (parse : String → Except String ProductRec) : Except String (Option ProductRec) :=
  if st.cacheEnabled ∧ st.hasClient then
    match redisGet with
    | .error _ => .ok none
    | .ok none => .ok none
    | .ok (some cached) =>
      match parse cached with
      | .error _ => .ok none
      | .ok p => .ok (some p)
  else .ok none

/-- `setCachedProduct` (lines 183–203). -/
def setCachedProduct (st : CacheState) (redisSet : Except String Unit) :
    Except String Unit :=
  if st.cacheEnabled ∧ st.hasClient then
    match redisSet with
    | .error _ => .ok ()
    | .ok () => .ok ()
  else .ok ()

/-! ## Concrete scenario inputs used by counterexamples and witnesses -/

/-- Every browser attempt is blocked (captcha detected, no solver,
non-interactive): `scrapeWithBrowser` throws `blockedNoSolverMsg`. -/
def cexBrowserBlocked : Nat → Except String ProductRec :=
  fun _ => .error blockedNoSolverMsg

/-- A 100-character response body containing the block marker `captcha`. -/
def cexBlockedHtml : String := ⟨List.replicate 93 'x' ++ "captcha".data⟩

/-- Every fetch attempt receives a 200 response whose body is blocked. -/
def cexFetchBlocked : Nat → FetchStep :=
  fun _ => .httpResp 200 "OK" cexBlockedHtml

/-- An extractor that succeeds with a real title (never reached in the
blocked scenarios). -/
def cexExtractOk : String → ProductRec := fun _ => ⟨"Widget"⟩

/-- A 100-character response body with no block marker. -/
def cexCleanHtml : String := ⟨List.replicate 100 'a'⟩

/-- Every fetch attempt receives a clean 200 response. -/
def cexFetchClean : Nat → FetchStep :=
  fun _ => .httpResp 200 "OK" cexCleanHtml

/-- An extractor that only ever finds the sentinel title. -/
def cexExtractUnknown : String → ProductRec := fun _ => ⟨"Unknown Product"⟩

/-- Every browser attempt fails with the extraction-failure message. -/
def cexBrowserExtractFail : Nat → Except String ProductRec :=
  fun _ => .error extractFailMsg

/-- A browser-missing failure message (matches `ENOENT`). -/
def cexEnoentMsg : String := "ENOENT: no such file or directory, stat /usr/bin/chromium"

/-- A navigation-timeout failure message (matches no abort phrase). -/
def cexTimeoutMsg : String := "Navigation timeout of 45000 ms exceeded"

/-- A launch failure whose message is executable-path related. -/
def cexLaunchPathErr : String :=
  "Browser was not found at the configured executablePath"

/-- A launch failure unrelated to the executable path. -/
def cexLaunchCrashErr : String := "Failed to launch the browser process: crashed"

/-- A concrete browser handle. -/
def cexBrw : Brw := ⟨7, true, true⟩

/-- Manager state with no handle and no launch in flight. -/
def cexIdleState : BMState :=
  { browser := none, isLaunching := false, launchPromise := none,
    headless := .hTrue, nextLaunchId := 0, launchCount := 0, closeCount := 0 }

/-- Manager state holding a connected headless handle. -/
def cexReadyState : BMState :=
  { browser := some cexBrw, isLaunching := false, launchPromise := none,
    headless := .hNew, nextLaunchId := 8, launchCount := 1, closeCount := 0 }

/-- Three concurrent first-time callers with assorted overrides. -/
def cexAcquireBurst : List (Option HeadlessPref) :=
  [some .hFalse, none, some .hNew]

/-- A page with clean text, markup and title, no DOM markers, but whose URL
contains the indicator phrase `captcha`. -/
def cexUrlPage : PageView :=
  { bodyText := ⟨List.replicate 60 'a'⟩
    innerHtml := "<html><body>aaaa</body></html>"
    content := "<html><body>aaaa</body></html>"
    title := "Widget product page"
    url := "https://www.alibaba.com/captcha/product_123.html"
    recaptchaIframe := false, gRecaptchaDiv := false, captchaIdElem := false
    captchaClassElem := false, challengeIdElem := false
    challengeClassElem := false, challengeIframe := false }

/-- A fully clean page: no phrase anywhere, no markers, ample text. -/
def cexCleanPage : PageView :=
  { bodyText := ⟨List.replicate 60 'a'⟩
    innerHtml := "<html><body>aaaa</body></html>"
    content := "<html><body>aaaa</body></html>"
    title := "Widget product page"
    url := "https://www.alibaba.com/product/widget_123.html"
    recaptchaIframe := false, gRecaptchaDiv := false, captchaIdElem := false
    captchaClassElem := false, challengeIdElem := false
    challengeClassElem := false, challengeIframe := false }

/-- A page whose serialized content contains `captcha`. -/
def cexDirtyPage : PageView :=
  { cexCleanPage with
    content := "<html><body>please solve the captcha below</body></html>" }

/-! # Theorems -/

/-! ## Generic helper lemmas -/

/-- A list is a prefix of itself followed by anything. -/
theorem isPrefixOf_append_self (a b : List Char) :
    List.isPrefixOf a (a ++ b) = true := by
  rw [List.isPrefixOf_iff_prefix]
  exact List.prefix_append a b

/-- Every early-check phrase is also a final-check indicator. -/
theorem earlyPhrases_subset : ∀ ph ∈ earlyPhrases, ph ∈ captchaIndicators := by
  decide

/-! ## URL normalization -/

/-- `normalizeUrlCore` is idempotent: its result is empty, already carries a
protocol, or has one freshly prepended, and the second and third cases are
fixed points because a prepended `https:`/`https://` makes the protocol test
succeed. -/
theorem normalizeUrlCore_idem (l : List Char) :
    normalizeUrlCore (normalizeUrlCore l) = normalizeUrlCore l := by
  by_cases h0 : l.isEmpty
  · simp [normalizeUrlCore, h0]
  · by_cases h1 : matchesProtocolL l
    · simp [normalizeUrlCore, h0, h1]
    · by_cases h2 : List.isPrefixOf ['/', '/'] l
      · have hpre : ['/', '/'] <+: l := List.isPrefixOf_iff_prefix.mp h2
        obtain ⟨t, rfl⟩ := hpre
        simp only [List.cons_append, List.nil_append] at h0 h1 h2 ⊢
        have hR : List.isPrefixOf "https://".data
            (lowerL ("https:".data ++ ('/' :: '/' :: t))) = true := by
          simp only [lowerL, List.map_append]
          rw [show "https:".data.map Char.toLower = "https:".data from by decide]
          rw [show ('/' :: '/' :: t).map Char.toLower =
              '/' :: '/' :: t.map Char.toLower from by
            simp [show Char.toLower '/' = '/' from by decide]]
          rw [List.isPrefixOf_iff_prefix]
          exact List.prefix_append ['h', 't', 't', 'p', 's', ':', '/', '/']
            (t.map Char.toLower)
        have hproto :
            matchesProtocolL ("https:".data ++ ('/' :: '/' :: t)) = true := by
          unfold matchesProtocolL
          rw [hR]
          simp
        have hne : ("https:".data ++ ('/' :: '/' :: t)).isEmpty = false := by
          rw [show "https:".data = ['h', 't', 't', 'p', 's', ':'] from by decide]
          rfl
        have hstep : normalizeUrlCore ('/' :: '/' :: t) =
            "https:".data ++ ('/' :: '/' :: t) := by
          simp [normalizeUrlCore, h0, h1, h2]
        rw [hstep]
        unfold normalizeUrlCore
        rw [hne, hproto]
        simp
      · have hR : List.isPrefixOf "https://".data
            (lowerL ("https://".data ++ l)) = true := by
          simp only [lowerL, List.map_append]
          rw [show "https://".data.map Char.toLower = "https://".data from by decide]
          rw [List.isPrefixOf_iff_prefix]
          exact List.prefix_append ['h', 't', 't', 'p', 's', ':', '/', '/']
            (l.map Char.toLower)
        have hproto : matchesProtocolL ("https://".data ++ l) = true := by
          unfold matchesProtocolL
          rw [hR]
          simp
        have hne : ("https://".data ++ l).isEmpty = false := by
          rw [show "https://".data =
              ['h', 't', 't', 'p', 's', ':', '/', '/'] from by decide]
          rfl
        have hstep : normalizeUrlCore l = "https://".data ++ l := by
          simp [normalizeUrlCore, h0, h1, h2]
        rw [hstep]
        unfold normalizeUrlCore
        rw [hne, hproto]
        simp

/-- Claim C10: for every input string `u`, `normalizeUrl u` equals `u` when
`u` is empty or already matches `^https?://` case-insensitively, equals
`"https:" ++ u` when `u` starts with `"//"`, and equals `"https://" ++ u`
otherwise (stated as equality with the spec-side `normalizeUrlSpec`); and
`normalizeUrl` is idempotent. -/
theorem c10_normalize_url_spec_and_idempotent (s : String) :
    normalizeUrl s = normalizeUrlSpec s ∧
    normalizeUrl (normalizeUrl s) = normalizeUrl s := by
  constructor
  · obtain ⟨l⟩ := s
    simp only [normalizeUrl, normalizeUrlSpec, normalizeUrlCore]
    by_cases h0 : l.isEmpty
    · simp [h0]
    · by_cases h1 : matchesProtocolL l
      · simp [h0, h1]
      · by_cases h2 : List.isPrefixOf ['/', '/'] l
        · simp only [h0, h1, h2, if_true, if_false, Bool.false_eq_true,
            ite_false, ite_true]
          rfl
        · simp only [h0, h1, h2, Bool.false_eq_true, ite_false]
          rfl
  · exact congrArg String.mk (normalizeUrlCore_idem s.data)

/-! ## Page session cleanup (claim C5) -/

/-- Claim C5: every `scrapeWithBrowser` attempt closes the page it opened
before returning, on every outcome (navigation error, blocked page,
extraction failure, success — and when `newPage` itself fails there is no
page to close), and it never closes the shared browser handle. -/
theorem c5_page_closed_browser_kept (o : AttemptOutcome) :
    (scrapeWithBrowserModel o).1.pagesClosed = (scrapeWithBrowserModel o).1.pagesOpened ∧
    (scrapeWithBrowserModel o).1.browserClosed = false := by
  cases o <;> simp [scrapeWithBrowserModel, scrapeTryBody, scrapeFinally]

/-! ## Best-effort cache (claim C8) -/

/-- Claim C8: a failing cache read returns exactly the cache-miss result
(`ok none`), a cache read never propagates a failure (it always returns
`ok`), and a cache write always returns normally — so no cache failure can
abort a scrape in progress. -/
theorem c8_cache_failures_absorbed (st : CacheState) (e : String)
    (g : Except String (Option String)) (parse : String → Except String ProductRec)
    (u : Except String Unit) :
    getCachedProduct st (.error e) parse = .ok none ∧
    getCachedProduct st (.error e) parse = getCachedProduct st (.ok none) parse ∧
    (∃ v, getCachedProduct st g parse = .ok v) ∧
    setCachedProduct st u = .ok () := by
  refine ⟨?_, ?_, ?_, ?_⟩
  · by_cases h : st.cacheEnabled ∧ st.hasClient <;> simp [getCachedProduct, h]
  · by_cases h : st.cacheEnabled ∧ st.hasClient <;> simp [getCachedProduct, h]
  · by_cases h : st.cacheEnabled ∧ st.hasClient
    · match g with
      | .error _ => exact ⟨none, by simp [getCachedProduct, h]⟩
      | .ok none => exact ⟨none, by simp [getCachedProduct, h]⟩
      | .ok (some cached) =>
        match hp : parse cached with
        | .error _ => exact ⟨none, by simp [getCachedProduct, h, hp]⟩
        | .ok p => exact ⟨some p, by simp [getCachedProduct, h, hp]⟩
    · exact ⟨none, by simp [getCachedProduct, h]⟩
  · by_cases h : st.cacheEnabled ∧ st.hasClient
    · match u with
      | .error _ => simp [setCachedProduct, h]
      | .ok () => simp [setCachedProduct, h]
    · simp [setCachedProduct, h]

/-! ## Launch retry inside the lifecycle manager (claim C6) -/

/-- Counterexample to claim C6 as stated: on a launch failure whose message
is executable-path related, `launchBrowser` performs a second
`puppeteer.launch` call (a silent internal retry) — here the retry succeeds,
so the failure is never surfaced to the caller at all. -/
theorem c6_counterexample :
    launchBrowserModel (.error cexLaunchPathErr) (.ok cexBrw) = (2, .ok cexBrw) ∧
    (2 : Nat) ≠ 1 := by
  refine ⟨by rfl, by decide⟩

/-- Claim C6, amended: the lifecycle manager retries the launch internally
exactly once, and only when the first failure's message is
executable-path-related (contains one of `execPathPhrases`); any other
launch failure is surfaced unchanged without retry, and if the single
internal retry also fails, that failure is surfaced. -/
theorem c6_corrected_internal_retry_on_path_errors
    (m : String) (second : Except String Brw) :
    ((launchBrowserModel (.error m) second).1 = 2 ↔
      containsAny m execPathPhrases = true) ∧
    (containsAny m execPathPhrases = false →
      launchBrowserModel (.error m) second = (1, .error m)) ∧
    (∀ e2 : String, containsAny m execPathPhrases = true → second = .error e2 →
      (launchBrowserModel (.error m) second).2 = .error e2) ∧
    (∀ b : Brw, launchBrowserModel (.ok b) second = (1, .ok b)) := by
  by_cases h : containsAny m execPathPhrases
  · refine ⟨by simp [launchBrowserModel, h], by simp [h], ?_, ?_⟩
    · intro e2 _ hs
      simp [launchBrowserModel, h, hs]
    · intro b
      simp [launchBrowserModel]
  · refine ⟨by simp [launchBrowserModel, h], by simp [launchBrowserModel, h], ?_, ?_⟩
    · intro e2 habs
      exact absurd habs (by simp [h])
    · intro b
      simp [launchBrowserModel]

/-- Witness for C6 (amended): a path-related first failure followed by a
failing retry surfaces the retry's failure; a crash failure is surfaced
unchanged after exactly one launch call. -/
theorem c6_witness :
    (launchBrowserModel (.error cexLaunchPathErr) (.error cexLaunchCrashErr)).2 =
      .error cexLaunchCrashErr ∧
    launchBrowserModel (.error cexLaunchCrashErr) (.ok cexBrw) =
      (1, .error cexLaunchCrashErr) := by
  constructor
  · exact (c6_corrected_internal_retry_on_path_errors cexLaunchPathErr
      (.error cexLaunchCrashErr)).2.2.1 cexLaunchCrashErr (by decide) rfl
  · exact (c6_corrected_internal_retry_on_path_errors cexLaunchCrashErr
      (.ok cexBrw)).2.1 (by decide)

/-! ## Retry-loop helper lemmas -/

/-- If every fetch attempt fails with the same non-breaking message, the
fetch loop uses its whole remaining budget and ends with the generic
after-N-attempts error. -/
theorem fetchLoopAux_all_error (extract : String → ProductRec)
    (steps : Nat → FetchStep) (retries : Nat) (m : String)
    (hall : ∀ i, attemptFetch extract (steps i) = .error m)
    (hbreak : shouldBreakFetchRetry m = false) :
    ∀ n attempt lastE, 1 ≤ n →
      (fetchLoopAux extract steps retries n attempt lastE).1.length = n ∧
      (fetchLoopAux extract steps retries n attempt lastE).2 =
        .error (scrapeFailMsg retries (some m)) := by
  intro n
  induction n with
  | zero => intro attempt lastE h; omega
  | succ k ih =>
    intro attempt lastE _
    by_cases hk : k = 0
    · subst hk
      simp [fetchLoopAux, hall attempt, hbreak]
    · obtain ⟨ihlen, ihres⟩ := ih (attempt + 1) (some m) (Nat.one_le_iff_ne_zero.mpr hk)
      simp [fetchLoopAux, hall attempt, hbreak, hk, ihlen, ihres]

/-- If every browser attempt fails with the same non-aborting message, the
browser loop uses its whole remaining budget and ends with the generic
after-N-attempts error. -/
theorem browserLoopAux_all_error (outcomes : Nat → Except String ProductRec)
    (retries : Nat) (m : String)
    (hall : ∀ i, outcomes i = .error m)
    (habort : shouldAbortBrowserRetry m = false) :
    ∀ n attempt lastE, 1 ≤ n →
      (browserLoopAux outcomes retries n attempt lastE).1.length = n ∧
      (browserLoopAux outcomes retries n attempt lastE).2 =
        .error (scrapeFailMsg retries (some m)) := by
  intro n
  induction n with
  | zero => intro attempt lastE h; omega
  | succ k ih =>
    intro attempt lastE _
    by_cases hk : k = 0
    · subst hk
      simp [browserLoopAux, hall attempt, habort]
    · obtain ⟨ihlen, ihres⟩ := ih (attempt + 1) (some m) (Nat.one_le_iff_ne_zero.mpr hk)
      simp [browserLoopAux, hall attempt, habort, hk, ihlen, ihres]

/-- A browser-loop run with at least one attempt of budget records at least
one attempt in the history. -/
theorem browserLoopAux_length_pos (outcomes : Nat → Except String ProductRec)
    (retries n attempt : Nat) (lastE : Option String) (hn : 1 ≤ n) :
    1 ≤ (browserLoopAux outcomes retries n attempt lastE).1.length := by
  cases n with
  | zero => omega
  | succ k =>
    cases houtcome : outcomes attempt with
    | ok p => simp [browserLoopAux, houtcome]
    | error m =>
      by_cases h1 : shouldAbortBrowserRetry m
      · simp [browserLoopAux, houtcome, h1]
      · by_cases h2 : k = 0
        · simp [browserLoopAux, houtcome, h1, h2]
        · simp [browserLoopAux, houtcome, h1, h2]

/-- A fetch-loop run with at least one attempt of budget records at least
one attempt in the history. -/
theorem fetchLoopAux_length_pos (extract : String → ProductRec)
    (steps : Nat → FetchStep) (retries n attempt : Nat) (lastE : Option String)
    (hn : 1 ≤ n) :
    1 ≤ (fetchLoopAux extract steps retries n attempt lastE).1.length := by
  cases n with
  | zero => omega
  | succ k =>
    cases houtcome : attemptFetch extract (steps attempt) with
    | ok p => simp [fetchLoopAux, houtcome]
    | error m =>
      by_cases h1 : shouldBreakFetchRetry m
      · simp [fetchLoopAux, houtcome, h1]
      · by_cases h2 : k = 0
        · simp [fetchLoopAux, houtcome, h1, h2]
        · simp [fetchLoopAux, houtcome, h1, h2]

/-- One non-aborting failed browser attempt with budget left conses onto the
history of the remaining run. -/
theorem browserLoopAux_cons (outcomes : Nat → Except String ProductRec)
    (retries n attempt : Nat) (lastE : Option String) (m : String)
    (hn : n ≠ 0) (h1 : outcomes attempt = .error m)
    (habort : shouldAbortBrowserRetry m = false) :
    browserLoopAux outcomes retries (n + 1) attempt lastE =
      (.error m :: (browserLoopAux outcomes retries n (attempt + 1) (some m)).1,
        (browserLoopAux outcomes retries n (attempt + 1) (some m)).2) := by
  simp [browserLoopAux, h1, habort, hn]

/-- One non-breaking failed fetch attempt with budget left conses onto the
history of the remaining run. -/
theorem fetchLoopAux_cons (extract : String → ProductRec)
    (steps : Nat → FetchStep) (retries n attempt : Nat) (lastE : Option String)
    (m : String) (hn : n ≠ 0) (h1 : attemptFetch extract (steps attempt) = .error m)
    (hbreak : shouldBreakFetchRetry m = false) :
    fetchLoopAux extract steps retries (n + 1) attempt lastE =
      (.error m :: (fetchLoopAux extract steps retries n (attempt + 1) (some m)).1,
        (fetchLoopAux extract steps retries n (attempt + 1) (some m)).2) := by
  simp [fetchLoopAux, h1, hbreak, hn]

/-! ## Claim C1 -/

/-- Counterexample to claim C1 as stated: with `retries = 3`, no solver, and
every browser attempt blocked, a blocked fallback fetch is retried by the
fallback's own 3-attempt default budget — the fetch attempt history has
length 3, not 1 (and the total history is 6 = retries + 3, not retries + 1).
The blocked fetch error message (`Access denied by Alibaba...`, lower-case
"denied") does not match the case-sensitive break phrase `"Access Denied"`,
so the fetch loop does not stop early. -/
theorem c1_counterexample :
    (scrapeEndpoint cexBrowserBlocked cexExtractOk cexFetchBlocked 3).1.length = 3 ∧
    (scrapeEndpoint cexBrowserBlocked cexExtractOk cexFetchBlocked 3).2.1.length = 3 ∧
    ¬((scrapeEndpoint cexBrowserBlocked cexExtractOk cexFetchBlocked 3).2.1.length = 1) ∧
    (scrapeEndpoint cexBrowserBlocked cexExtractOk cexFetchBlocked 3).2.2 =
      .error (scrapeFailMsg 3 (some accessDeniedMsg)) := by
  refine ⟨by decide, by decide, by decide, by rfl⟩

/-- Claim C1, amended: with `retries = 3`, no solver configured, every
browser attempt blocked and every fallback fetch attempt blocked, exactly 3
browser attempts occur, then the fallback fetch path runs once but performs
its own 3 attempts (its default budget), and the run ends with the terminal
after-3-attempts error; the attempt history has length retries + 3 = 6. -/
theorem c1_corrected_fallback_retry_budget
    (browserOutcomes : Nat → Except String ProductRec)
    (extract : String → ProductRec) (fetchSteps : Nat → FetchStep)
    (hbrowser : ∀ i, browserOutcomes i = .error blockedNoSolverMsg)
    (hfetch : ∀ i, attemptFetch extract (fetchSteps i) = .error accessDeniedMsg) :
    (scrapeEndpoint browserOutcomes extract fetchSteps 3).1.length = 3 ∧
    (scrapeEndpoint browserOutcomes extract fetchSteps 3).2.1.length = 3 ∧
    (scrapeEndpoint browserOutcomes extract fetchSteps 3).2.2 =
      .error (scrapeFailMsg 3 (some accessDeniedMsg)) := by
  have habort : shouldAbortBrowserRetry blockedNoSolverMsg = false := by decide
  have hbreak : shouldBreakFetchRetry accessDeniedMsg = false := by decide
  obtain ⟨hblen, hbres⟩ := browserLoopAux_all_error browserOutcomes 3
    blockedNoSolverMsg hbrowser habort 3 1 none (by omega)
  obtain ⟨hflen, hfres⟩ := fetchLoopAux_all_error extract fetchSteps 3
    accessDeniedMsg hfetch hbreak 3 1 none (by omega)
  simp only [scrapeEndpoint, scrapeFromUrlWithBrowser, scrapeFromUrl]
  rw [hbres]
  exact ⟨hblen, hflen, hfres⟩

/-- Witness for C1 (amended) at the concrete all-blocked scenario. -/
theorem c1_witness :
    (scrapeEndpoint cexBrowserBlocked cexExtractOk cexFetchBlocked 3).1.length = 3 ∧
    (scrapeEndpoint cexBrowserBlocked cexExtractOk cexFetchBlocked 3).2.1.length = 3 ∧
    (scrapeEndpoint cexBrowserBlocked cexExtractOk cexFetchBlocked 3).2.2 =
      .error (scrapeFailMsg 3 (some accessDeniedMsg)) :=
  c1_corrected_fallback_retry_budget cexBrowserBlocked cexExtractOk cexFetchBlocked
    (fun _ => rfl) (fun _ => rfl)

/-! ## Claim C3 -/

/-- Counterexample to claim C3 as stated: an attempt whose extracted record
has the sentinel title "Unknown Product" is NOT returned immediately — with
`retries = 2` the fetch loop performs a second attempt after the extraction
failure (history length 2, not 1), and the browser loop does the same. -/
theorem c3_counterexample :
    (scrapeFromUrl cexExtractUnknown cexFetchClean 2).1.length = 2 ∧
    ¬((scrapeFromUrl cexExtractUnknown cexFetchClean 2).1.length = 1) ∧
    (scrapeFromUrl cexExtractUnknown cexFetchClean 2).2 =
      .error (scrapeFailMsg 2 (some extractFailMsg)) ∧
    (scrapeFromUrlWithBrowser cexBrowserExtractFail 2).1.length = 2 := by
  refine ⟨by decide, by decide, by rfl, by decide⟩

/-- Claim C3, amended: an attempt whose extracted record lacks required
fields (title absent or "Unknown Product") is classified retryable on both
paths: its error message matches no abort phrase, so the loop retries until
the budget of `retries` attempts is exhausted and then reports the generic
after-N-attempts error carrying the extraction message. -/
theorem c3_corrected_extraction_failure_retried
    (retries : Nat) (extract : String → ProductRec) (steps : Nat → FetchStep)
    (browserOutcomes : Nat → Except String ProductRec)
    (hr : 1 ≤ retries)
    (hfetch : ∀ i, attemptFetch extract (steps i) = .error extractFailMsg)
    (hbrowser : ∀ i, browserOutcomes i = .error extractFailMsg) :
    (scrapeFromUrl extract steps retries).1.length = retries ∧
    (scrapeFromUrl extract steps retries).2 =
      .error (scrapeFailMsg retries (some extractFailMsg)) ∧
    (scrapeFromUrlWithBrowser browserOutcomes retries).1.length = retries ∧
    (scrapeFromUrlWithBrowser browserOutcomes retries).2 =
      .error (scrapeFailMsg retries (some extractFailMsg)) := by
  have h1 : shouldBreakFetchRetry extractFailMsg = false := by decide
  have h2 : shouldAbortBrowserRetry extractFailMsg = false := by decide
  obtain ⟨a, b⟩ := fetchLoopAux_all_error extract steps retries extractFailMsg
    hfetch h1 retries 1 none hr
  obtain ⟨c, d⟩ := browserLoopAux_all_error browserOutcomes retries extractFailMsg
    hbrowser h2 retries 1 none hr
  exact ⟨a, b, c, d⟩

/-- Witness for C3 (amended): the concrete sentinel-title scenario with
`retries = 2` on both paths. -/
theorem c3_witness :
    (scrapeFromUrl cexExtractUnknown cexFetchClean 2).1.length = 2 ∧
    (scrapeFromUrl cexExtractUnknown cexFetchClean 2).2 =
      .error (scrapeFailMsg 2 (some extractFailMsg)) ∧
    (scrapeFromUrlWithBrowser cexBrowserExtractFail 2).1.length = 2 ∧
    (scrapeFromUrlWithBrowser cexBrowserExtractFail 2).2 =
      .error (scrapeFailMsg 2 (some extractFailMsg)) :=
  c3_corrected_extraction_failure_retried 2 cexExtractUnknown cexFetchClean
    cexBrowserExtractFail (by omega) (fun _ => rfl) (fun _ => rfl)

/-! ## Claim C4 -/

/-- Counterexample to claim C4 as stated: the retry decision does inspect
free-text error-message strings — two failed attempts that differ only in
their message text receive different retry treatment (`ENOENT` aborts the
browser loop after 1 attempt, a navigation timeout is retried for 2). -/
theorem c4_counterexample :
    shouldAbortBrowserRetry cexEnoentMsg = true ∧
    shouldAbortBrowserRetry cexTimeoutMsg = false ∧
    (scrapeFromUrlWithBrowser (fun _ => .error cexEnoentMsg) 2).1.length = 1 ∧
    (scrapeFromUrlWithBrowser (fun _ => .error cexTimeoutMsg) 2).1.length = 2 := by
  refine ⟨by decide, by decide, by decide, by decide⟩

/-- Claim C4, amended: the retry loops decide retry vs. abort by substring
tests on the attempt's free-text error message: the browser loop aborts
immediately (wrapping the message in the browser-not-found error) iff the
message contains one of `browserAbortPhrases`, and otherwise proceeds to a
second attempt; the fetch loop stops retrying iff the message contains one
of `fetchAbortPhrases`, and otherwise proceeds to a second attempt. -/
theorem c4_corrected_string_based_retry_decision :
    (∀ (browserOutcomes : Nat → Except String ProductRec) (retries : Nat) (m : String),
      2 ≤ retries → browserOutcomes 1 = .error m →
      (shouldAbortBrowserRetry m = true →
        scrapeFromUrlWithBrowser browserOutcomes retries =
          ([.error m], .error (browserNotFoundMsg m))) ∧
      (shouldAbortBrowserRetry m = false →
        2 ≤ (scrapeFromUrlWithBrowser browserOutcomes retries).1.length)) ∧
    (∀ (extract : String → ProductRec) (steps : Nat → FetchStep)
        (retries : Nat) (m : String),
      2 ≤ retries → attemptFetch extract (steps 1) = .error m →
      (shouldBreakFetchRetry m = true →
        scrapeFromUrl extract steps retries =
          ([.error m], .error (scrapeFailMsg retries (some m)))) ∧
      (shouldBreakFetchRetry m = false →
        2 ≤ (scrapeFromUrl extract steps retries).1.length)) := by
  constructor
  · intro outcomes retries m hret h1
    obtain ⟨n, rfl⟩ : ∃ n, retries = n + 2 := ⟨retries - 2, by omega⟩
    rw [show n + 2 = (n + 1) + 1 from rfl]
    constructor
    · intro habort
      simp [scrapeFromUrlWithBrowser, browserLoopAux, h1, habort]
    · intro habort
      have hpos := browserLoopAux_length_pos outcomes ((n + 1) + 1) (n + 1) (1 + 1)
        (some m) (by omega)
      show 2 ≤ (browserLoopAux outcomes ((n + 1) + 1) ((n + 1) + 1) 1 none).1.length
      rw [browserLoopAux_cons outcomes ((n + 1) + 1) (n + 1) 1 none m
        (by omega) h1 habort]
      simp only [List.length_cons]
      omega
  · intro extract steps retries m hret h1
    obtain ⟨n, rfl⟩ : ∃ n, retries = n + 2 := ⟨retries - 2, by omega⟩
    rw [show n + 2 = (n + 1) + 1 from rfl]
    constructor
    · intro hbreak
      simp [scrapeFromUrl, fetchLoopAux, h1, hbreak]
    · intro hbreak
      have hpos := fetchLoopAux_length_pos extract steps ((n + 1) + 1) (n + 1) (1 + 1)
        (some m) (by omega)
      show 2 ≤ (fetchLoopAux extract steps ((n + 1) + 1) ((n + 1) + 1) 1 none).1.length
      rw [fetchLoopAux_cons extract steps ((n + 1) + 1) (n + 1) 1 none m
        (by omega) h1 hbreak]
      simp only [List.length_cons]
      omega

/-- Witness for C4 (amended): an `ENOENT` message aborts the browser loop
immediately with the wrapped error; a non-matching extraction-failure
message leads to a second fetch attempt. -/
theorem c4_witness :
    scrapeFromUrlWithBrowser (fun _ => .error cexEnoentMsg) 2 =
      ([.error cexEnoentMsg], .error (browserNotFoundMsg cexEnoentMsg)) ∧
    2 ≤ (scrapeFromUrl cexExtractUnknown cexFetchClean 2).1.length := by
  constructor
  · exact (c4_corrected_string_based_retry_decision.1 (fun _ => .error cexEnoentMsg)
      2 cexEnoentMsg (by omega) rfl).1 (by decide)
  · exact (c4_corrected_string_based_retry_decision.2 cexExtractUnknown
      cexFetchClean 2 extractFailMsg (by omega) rfl).2 (by decide)

/-! ## Claim C2 -/

/-- While a launch is in flight and no handle exists, every further
`getBrowser` caller joins that same launch: its synchronous prefix returns
`.join` of the in-flight launch id and starts nothing. -/
theorem acquireStep_inflight (t : BMState) (ov : Option HeadlessPref)
    (lid : Nat) (mode : Bool) (hb : t.browser = none) (hl : t.isLaunching = true)
    (hp : t.launchPromise = some (lid, mode)) :
    (acquireStep t ov).2 = .join lid ∧
    (acquireStep t ov).1.browser = none ∧
    (acquireStep t ov).1.isLaunching = true ∧
    (acquireStep t ov).1.launchPromise = some (lid, mode) ∧
    (acquireStep t ov).1.launchCount = t.launchCount := by
  cases ov with
  | none => simp [acquireStep, applyOverride, hb, hp, hl, acquireLaunch]
  | some m => simp [acquireStep, applyOverride, hb, hp, hl, acquireLaunch]

/-- A whole burst of callers arriving while a launch is in flight: all of
them join the in-flight launch and no further launch is started. -/
theorem acquireMany_inflight (ovs : List (Option HeadlessPref)) :
    ∀ (t : BMState) (lid : Nat) (mode : Bool),
      t.browser = none → t.isLaunching = true → t.launchPromise = some (lid, mode) →
      (acquireMany t ovs).2 = List.replicate ovs.length (.join lid) ∧
      (acquireMany t ovs).1.launchCount = t.launchCount := by
  induction ovs with
  | nil =>
    intro t lid mode _ _ _
    simp [acquireMany]
  | cons ov rest ih =>
    intro t lid mode hb hl hp
    obtain ⟨hres, hb2, hl2, hp2, hcount⟩ := acquireStep_inflight t ov lid mode hb hl hp
    obtain ⟨ihres, ihcount⟩ := ih (acquireStep t ov).1 lid mode hb2 hl2 hp2
    simp [acquireMany, hres, ihres, ihcount, hcount, List.replicate_succ]

/-- The first `getBrowser` caller arriving at a fresh state (no handle, no
launch in flight) starts a launch whose id is the next launch id, whatever
override it passes. -/
theorem acquireStep_fresh (s : BMState) (ov : Option HeadlessPref)
    (hb : s.browser = none) (hl : s.isLaunching = false)
    (hp : s.launchPromise = none) :
    ∃ hm : HeadlessPref,
      acquireStep s ov =
        ({ s with
            headless := hm
            isLaunching := true
            launchPromise := some (s.nextLaunchId, hmIsHeadless hm)
            nextLaunchId := s.nextLaunchId + 1
            launchCount := s.launchCount + 1 },
         .start s.nextLaunchId) := by
  cases ov with
  | none =>
    refine ⟨s.headless, ?_⟩
    simp [acquireStep, applyOverride, hb, hp, hl, acquireLaunch, startLaunch]
  | some m =>
    refine ⟨m, ?_⟩
    simp [acquireStep, applyOverride, hb, hp, hl, acquireLaunch, startLaunch]

/-- Claim C2: for every burst of N ≥ 1 concurrent first-time `getBrowser`
callers starting from a state with no browser handle and no launch in
flight, exactly one underlying launch is started (the launch count rises by
exactly one) and every caller after the first receives the result of that
same launch (`.join` of the one started launch id) — so at most one launch
is ever in flight during the burst. -/
theorem c2_single_launch_for_concurrent_callers (s : BMState)
    (ovs : List (Option HeadlessPref))
    (hb : s.browser = none) (hl : s.isLaunching = false)
    (hp : s.launchPromise = none) (hne : ovs ≠ []) :
    (acquireMany s ovs).1.launchCount = s.launchCount + 1 ∧
    (acquireMany s ovs).2 =
      .start s.nextLaunchId ::
        List.replicate (ovs.length - 1) (.join s.nextLaunchId) := by
  cases ovs with
  | nil => exact absurd rfl hne
  | cons ov rest =>
    obtain ⟨hm, hstep⟩ := acquireStep_fresh s ov hb hl hp
    obtain ⟨ihres, ihcount⟩ := acquireMany_inflight rest
      (acquireStep s ov).1 s.nextLaunchId (hmIsHeadless hm)
      (by simp [hstep, hb]) (by simp [hstep]) (by simp [hstep])
    constructor
    · simp only [acquireMany]
      rw [ihcount, hstep]
    · simp only [acquireMany]
      rw [ihres]
      simp [hstep]

/-- Witness for C2: three concurrent first-time callers with assorted
overrides produce exactly one `.start` followed by two `.join`s of the same
launch id, and one launch in total. -/
theorem c2_witness :
    (acquireMany cexIdleState cexAcquireBurst).1.launchCount =
      cexIdleState.launchCount + 1 ∧
    (acquireMany cexIdleState cexAcquireBurst).2 =
      .start cexIdleState.nextLaunchId ::
        List.replicate (cexAcquireBurst.length - 1)
          (.join cexIdleState.nextLaunchId) :=
  c2_single_launch_for_concurrent_callers cexIdleState cexAcquireBurst
    rfl rfl rfl (by decide)

/-! ## Claim C7 -/

/-- Claim C7: with a connected handle present, a `getBrowser` call whose
override's normalized mode differs from the current mode performs exactly
one teardown (close count + 1) and exactly one relaunch (launch count + 1),
and the caller — and the next acquire — observe a connected handle in the new
mode; if the override's normalized mode matches, the existing handle is
returned with the state unchanged. -/
theorem c7_headless_switch_single_restart (s : BMState) (b : Brw)
    (m : HeadlessPref) (hB : s.browser = some b) (hc : b.connected = true)
    (hl : s.isLaunching = false) (hp : s.launchPromise = none) :
    (hmIsHeadless m ≠ hmIsHeadless s.headless →
      (getBrowserRun s (some m)).1.closeCount = s.closeCount + 1 ∧
      (getBrowserRun s (some m)).1.launchCount = s.launchCount + 1 ∧
      ∃ b2 : Brw,
        (getBrowserRun s (some m)).2 = some b2 ∧
        b2.headless = hmIsHeadless m ∧ b2.connected = true ∧
        (getBrowserRun s (some m)).1.browser = some b2 ∧
        getBrowserRun (getBrowserRun s (some m)).1 none =
          ((getBrowserRun s (some m)).1, some b2)) ∧
    (hmIsHeadless m = hmIsHeadless s.headless →
      getBrowserRun s (some m) = (s, some b)) := by
  constructor
  · intro hdiff
    have hstep : getBrowserRun s (some m) =
        ({ s with
            browser := some ⟨s.nextLaunchId, hmIsHeadless m, true⟩
            closeCount := s.closeCount + 1
            headless := m
            isLaunching := false
            launchPromise := none
            nextLaunchId := s.nextLaunchId + 1
            launchCount := s.launchCount + 1 },
         some ⟨s.nextLaunchId, hmIsHeadless m, true⟩) := by
      simp [getBrowserRun, acquireStep, applyOverride, hB, hc, hdiff, hp, hl,
        acquireLaunch, startLaunch, completeStep]
    refine ⟨by rw [hstep], by rw [hstep],
      ⟨s.nextLaunchId, hmIsHeadless m, true⟩, by rw [hstep], rfl, rfl,
      by rw [hstep], ?_⟩
    rw [hstep]
    simp [getBrowserRun, acquireStep, applyOverride]
  · intro hsame
    simp [getBrowserRun, acquireStep, applyOverride, hB, hc, hsame]

/-- Witness for C7: switching the ready state's mode from headless to
visible closes and relaunches exactly once; asking for the current mode
returns the existing handle unchanged. -/
theorem c7_witness :
    (getBrowserRun cexReadyState (some .hFalse)).1.closeCount =
      cexReadyState.closeCount + 1 ∧
    (getBrowserRun cexReadyState (some .hFalse)).1.launchCount =
      cexReadyState.launchCount + 1 ∧
    getBrowserRun cexReadyState (some .hNew) = (cexReadyState, some cexBrw) := by
  have h := c7_headless_switch_single_restart cexReadyState cexBrw .hFalse
    rfl rfl rfl rfl
  have h2 := c7_headless_switch_single_restart cexReadyState cexBrw .hNew
    rfl rfl rfl rfl
  exact ⟨(h.1 (by decide)).1, (h.1 (by decide)).2.1, h2.2 (by decide)⟩

/-! ## Claim C9 -/

/-- Counterexample to claim C9 as stated: a page whose text and markup
(body text, inner HTML, serialized content, even the title) contain none of
the known phrases, with no challenge DOM marker and ample text, is still
classified blocked — because the final check also matches the indicator
phrases against the page URL, which here contains "captcha". -/
theorem c9_counterexample :
    (∀ ph ∈ captchaIndicators,
      strContainsCI cexUrlPage.bodyText ph = false ∧
      strContainsCI cexUrlPage.innerHtml ph = false ∧
      strContainsCI cexUrlPage.content ph = false ∧
      strContainsCI cexUrlPage.title ph = false) ∧
    finalCaptchaElements cexUrlPage = false ∧
    50 < cexUrlPage.bodyText.length ∧
    detectionBlocked cexUrlPage = true := by
  refine ⟨by decide, by decide, by decide, by decide⟩

/-- Claim C9, amended: the detection check is a predicate on the page's
text, markup, title and URL: a page none of whose text, inner HTML,
serialized content, title or URL contains a known block/challenge phrase
(case-insensitively), with no known challenge DOM marker and text length
above the content threshold, gets verdict blocked = false; and a page whose
serialized content contains a known block phrase gets blocked = true. -/
theorem c9_corrected_detection_predicate :
    (∀ p : PageView,
      (∀ ph ∈ captchaIndicators,
        strContainsCI p.bodyText ph = false ∧ strContainsCI p.innerHtml ph = false ∧
        strContainsCI p.content ph = false ∧ strContainsCI p.title ph = false ∧
        strContainsCI p.url ph = false) →
      finalCaptchaElements p = false →
      50 < p.bodyText.length →
      detectionBlocked p = false) ∧
    (∀ (p : PageView) (ind : String), ind ∈ captchaIndicators →
      strContainsCI p.content ind = true → detectionBlocked p = true) := by
  constructor
  · intro p hph helems _
    simp only [finalCaptchaElements, Bool.or_eq_false_iff] at helems
    obtain ⟨⟨⟨⟨⟨⟨e1, e2⟩, e3⟩, e4⟩, e5⟩, e6⟩, e7⟩ := helems
    have h1 : hasCaptchaText p = false := by
      apply List.any_eq_false.mpr
      intro x hx
      obtain ⟨hbt, hih, _, _, _⟩ := hph x (earlyPhrases_subset x hx)
      simp [hbt, hih]
    have h2 : finalHasCaptchaText p = false := by
      apply List.any_eq_false.mpr
      intro x hx
      obtain ⟨_, _, hc, ht, hu⟩ := hph x hx
      simp [hc, ht, hu]
    simp [detectionBlocked, earlyBlocked, finalBlocked, hasRecaptchaElem,
      finalCaptchaElements, h1, h2, e1, e2, e3, e4, e5, e6, e7]
  · intro p ind hmem hc
    have h2 : finalHasCaptchaText p = true := by
      apply List.any_eq_true.mpr
      exact ⟨ind, hmem, by simp [hc]⟩
    simp [detectionBlocked, finalBlocked, h2]

/-- Witness for C9 (amended): the fully clean page is not blocked; the page
whose content mentions a captcha is blocked. -/
theorem c9_witness :
    detectionBlocked cexCleanPage = false ∧ detectionBlocked cexDirtyPage = true := by
  constructor
  · exact c9_corrected_detection_predicate.1 cexCleanPage (by decide) (by decide)
      (by decide)
  · exact c9_corrected_detection_predicate.2 cexDirtyPage "captcha" (by decide)
      (by decide)
